import Mathlib

/-!
Verification of the e-commerce/blog/consultation backend (`src/main.py`,
`src/schemas.py`) against its natural-language specification.

The document store is modelled as an explicit in-memory state (`Store`),
threaded through every handler.  Monetary values (Python floats) are modelled
as rationals; `round(x, 2)` is modelled as rounding to 2 decimal places.
HTTP failures (`HTTPException` and unhandled exceptions surfaced by the
framework) are modelled as an `HTTPError` value carrying the status code and
detail string.  The adapter module `database.py` (`create_document`,
`get_documents`) is imported by `main.py` but is not part of the sources;
those two operations are modelled from the specification, and are marked so.
-/

/-- HTTP-level failure: status code plus detail string, as raised by
`HTTPException(status_code=..., detail=...)` or, for an unhandled exception,
the framework's 500 response. -/
structure HTTPError where
  status : Nat
  detail : String
deriving DecidableEq, Repr

/-- Round a rational to 2 decimal places, modelling Python `round(x, 2)`
on the exact value (tie behaviour is irrelevant to every statement below:
no tie arises at the inputs considered). -/
def round2 (x : ℚ) : ℚ := (⌊x * 100 + 1 / 2⌋ : ℚ) / 100

/-- Hex digit test, as accepted by `bson.ObjectId` (both cases). -/
def isHexChar (c : Char) : Bool :=
  c.isDigit || (Char.ofNat 97 ≤ c && c ≤ Char.ofNat 102) ||
    (Char.ofNat 65 ≤ c && c ≤ Char.ofNat 70)

/-- A string is accepted by `bson.ObjectId(s)` exactly when it is 24 hex
characters; anything else raises `bson.errors.InvalidId`. -/
def isValidObjectId (s : String) : Bool :=
  s.length == 24 && s.toList.all isHexChar

/-- Lower-case hex digit for a value below 16. -/
def hexChar (n : Nat) : Char :=
  if n < 10 then Char.ofNat (48 + n) else Char.ofNat (87 + n)

/-- Hex digits of `n` (fuel-bounded structural recursion; 24 digits of fuel
cover every identifier the model mints). -/
def hexRep : Nat → Nat → List Char
  | 0, _ => []
  | _ + 1, 0 => []
  | f + 1, n + 1 => hexRep f ((n + 1) / 16) ++ [hexChar ((n + 1) % 16)]

/-- Modelled from the spec: the store adapter (`database.py`, absent from the
sources) mints "a newly minted unique identifier" per insert; its string form
is a 24-character hex ObjectId.  The model derives it from an insertion
counter, zero-padded to 24 hex characters. -/
def natToId (n : Nat) : String :=
  let ds := if n = 0 then [hexChar 0] else hexRep 24 n
  String.mk (List.replicate (24 - ds.length) (hexChar 0) ++ ds)

/-- Zero-padded 3-digit rendering, modelling the Python format `{n:03}`. -/
def pad3 (n : Nat) : String :=
  if n < 10 then "00" ++ toString n
  else if n < 100 then "0" ++ toString n
  else toString n

/-- Product document (schema `Product` in `src/schemas.py`). -/
structure ProductDoc where
  title : String
  description : Option String
  price : ℚ
  category : String
  in_stock : Bool
  image : Option String
  sku : Option String
  stock_qty : Nat
deriving DecidableEq, Repr

/-- Blog post document (schema `BlogPost` in `src/schemas.py`). -/
structure BlogDoc where
  title : String
  slug : String
  excerpt : Option String
  content : String
  cover_image : Option String
  author : Option String
deriving DecidableEq, Repr

/-- Consultation document (schema `Consultation` in `src/schemas.py`);
`status` carries the schema default "pending" when the request omits it. -/
structure ConsultationDoc where
  name : String
  email : String
  phone : Option String
  doctor : String
  date : String
  time : String
  notes : Option String
  status : String
deriving DecidableEq, Repr

/-- Order line item (`OrderItemIn` in `src/main.py`, `OrderItem` in
`src/schemas.py`; the two coincide). -/
structure OrderItem where
  product_id : String
  title : String
  price : ℚ
  quantity : Int
  image : Option String
deriving DecidableEq, Repr

/-- Order document as assembled by `create_order` in `src/main.py`. -/
structure OrderDoc where
  items : List OrderItem
  subtotal : ℚ
  tax : ℚ
  shipping : ℚ
  total : ℚ
  currency : String
  customer_name : String
  customer_email : String
  customer_address : String
  payment_status : String
  payment_provider : String
deriving DecidableEq, Repr

/-- A stored document: the store-assigned identifier together with the
document body. -/
structure Stored (α : Type) where
  oid : String
  doc : α
deriving DecidableEq, Repr

/-- The document store state: one list per collection used by the handlers,
plus the insertion counter from which identifiers are minted. -/
structure Store where
  products : List (Stored ProductDoc)
  blogposts : List (Stored BlogDoc)
  consultations : List (Stored ConsultationDoc)
  orders : List (Stored OrderDoc)
  counter : Nat
deriving DecidableEq, Repr

/-- The empty store. -/
def emptyStore : Store := ⟨[], [], [], [], 0⟩

/-- Modelled from the spec: `create_document("product", p)` (adapter
`database.py`, absent from the sources): "insert(collection, doc) -> id",
appending the document and returning the minted identifier. -/
def create_document_product (s : Store) (p : ProductDoc) : String × Store :=
  (natToId s.counter,
   { s with products := s.products ++ [⟨natToId s.counter, p⟩],
            counter := s.counter + 1 })

/-- Modelled from the spec: `create_document("blogpost", d)` of the absent
adapter `database.py`. -/
def create_document_blogpost (s : Store) (d : BlogDoc) : String × Store :=
  (natToId s.counter,
   { s with blogposts := s.blogposts ++ [⟨natToId s.counter, d⟩],
            counter := s.counter + 1 })

/-- Modelled from the spec: `create_document("consultation", d)` of the
absent adapter `database.py`.  Per spec §4.2 the schema layer applies
defaults before the write; the caller passes the document with the
`Consultation` schema default already filled in. -/
def create_document_consultation (s : Store) (d : ConsultationDoc) :
    String × Store :=
  (natToId s.counter,
   { s with consultations := s.consultations ++ [⟨natToId s.counter, d⟩],
            counter := s.counter + 1 })

/-- Modelled from the spec: `create_document("order", d)` of the absent
adapter `database.py`. -/
def create_document_order (s : Store) (d : OrderDoc) : String × Store :=
  (natToId s.counter,
   { s with orders := s.orders ++ [⟨natToId s.counter, d⟩],
            counter := s.counter + 1 })

/-- Modelled from the spec: `get_documents("consultation", {}, limit)` of the
absent adapter `database.py`: "find(collection, filter, limit) -> list of
doc", returning "up to limit documents" with no ordering requirement
(insertion order). -/
def get_documents_consultation (s : Store) (limit : Nat) :
    List (Stored ConsultationDoc) :=
  s.consultations.take limit

/-- `SAMPLE_PRODUCTS` from `src/main.py`: ten generated sample products. -/
def SAMPLE_PRODUCTS : List ProductDoc :=
  (List.range 10).map fun (i : Nat) =>
    { title := "Product " ++ toString (i + 1)
      description := some "A great product you will love."
      price := (499 : ℚ) + (i : ℚ) * 50
      category := "general"
      in_stock := true
      image := some ("https://picsum.photos/seed/p" ++ toString i ++ "/600/400")
      sku := some ("SKU" ++ pad3 (i + 1))
      stock_qty := 20 }

/-- Response of the seed endpoint: `{"inserted": n}` with an optional
`"message"` on the no-op path. -/
structure SeedResp where
  inserted : Nat
  message : Option String
deriving DecidableEq, Repr

/-- Insert a list of products through `create_document_product`, as the
`for p in SAMPLE_PRODUCTS` loop in `seed_products` does. -/
def insertProducts (s : Store) (ps : List ProductDoc) : Store :=
  ps.foldl (fun acc p => (create_document_product acc p).2) s

/-- `seed_products` from `src/main.py`: no-op when the collection is
non-empty and `force` is false; with `force`, delete all products first;
then insert every sample product, counting insertions. -/
def seed_products (s : Store) (force : Bool) : SeedResp × Store :=
  if 0 < s.products.length ∧ force = false then
    (⟨0, some "Products already exist"⟩, s)
  else
    let s1 := if force then { s with products := [] } else s
    (⟨SAMPLE_PRODUCTS.length, none⟩, insertProducts s1 SAMPLE_PRODUCTS)

/-- Request body of `POST /api/blogs` (`BlogCreate` in `src/main.py`). -/
structure BlogCreate where
  title : String
  slug : String
  content : String
  excerpt : Option String
  cover_image : Option String
  author : Option String
deriving DecidableEq, Repr

/-- `blog.model_dump()`: the document written for a blog-creation request. -/
def blogDocOf (b : BlogCreate) : BlogDoc :=
  { title := b.title, slug := b.slug, excerpt := b.excerpt,
    content := b.content, cover_image := b.cover_image, author := b.author }

/-- `create_blog` from `src/main.py`: duplicate-slug pre-check
(`find_one({"slug": blog.slug})`), raising 400 "Slug already exists" on a
hit, otherwise inserting and returning the new id. -/
def create_blog (s : Store) (b : BlogCreate) :
    Except HTTPError String × Store :=
  match s.blogposts.find? (fun d => d.doc.slug == b.slug) with
  | some _ => (Except.error ⟨400, "Slug already exists"⟩, s)
  | none =>
      let r := create_document_blogpost s (blogDocOf b)
      (Except.ok r.1, r.2)

/-- `get_blog` from `src/main.py`: exact slug lookup, 404 "Not found" when
absent, otherwise the stored document with its id. -/
def get_blog (s : Store) (slug : String) :
    Except HTTPError (Stored BlogDoc) :=
  match s.blogposts.find? (fun d => d.doc.slug == slug) with
  | none => Except.error ⟨404, "Not found"⟩
  | some d => Except.ok d

/-- Request body of `POST /api/consultations` (`ConsultationRequest` in
`src/main.py`); it has no `status` field. -/
structure ConsultationRequest where
  name : String
  email : String
  phone : Option String
  doctor : String
  date : String
  time : String
  notes : Option String
deriving DecidableEq, Repr

/-- The consultation document stored for a request: `req.model_dump()` with
the `Consultation` schema default `status = "pending"` applied by the
validation layer before the write (spec §4.2; the default itself is in
`src/schemas.py`). -/
def consultationDocOf (r : ConsultationRequest) : ConsultationDoc :=
  { name := r.name, email := r.email, phone := r.phone, doctor := r.doctor,
    date := r.date, time := r.time, notes := r.notes, status := "pending" }

/-- Response of `POST /api/consultations`: `{"id": cid, "status": "pending"}`. -/
structure ConsultResp where
  id : String
  status : String
deriving DecidableEq, Repr

/-- `book_consultation` from `src/main.py`: insert and answer with the new
id and the literal status string "pending". -/
def book_consultation (s : Store) (r : ConsultationRequest) :
    ConsultResp × Store :=
  let c := create_document_consultation s (consultationDocOf r)
  (⟨c.1, "pending"⟩, c.2)

/-- `list_consultations` from `src/main.py`: fetch up to `limit` documents
(query parameter defaulting to 20) and expose the identifier as `id`. -/
def list_consultations (s : Store) (limit : Option Nat) :
    List (Stored ConsultationDoc) :=
  get_documents_consultation s (limit.getD 20)

/-- Request body of `POST /api/checkout/create-order`
(`CreateOrderRequest` in `src/main.py`). -/
structure CreateOrderRequest where
  items : List OrderItem
  customer_name : String
  customer_email : String
  customer_address : String
deriving DecidableEq, Repr

/-- Response of `POST /api/checkout/create-order`. -/
structure CreateOrderResp where
  order_id : String
  amount : ℚ
  currency : String
  payment_url : String
deriving DecidableEq, Repr

/-- `create_order` from `src/main.py`: reject an empty cart with 400
"Cart is empty"; otherwise compute subtotal, tax, shipping and total,
persist the order document and answer with id, amount, currency and the
mock payment URL. -/
def create_order (s : Store) (req : CreateOrderRequest) :
    Except HTTPError CreateOrderResp × Store :=
  if req.items = [] then (Except.error ⟨400, "Cart is empty"⟩, s)
  else
    let subtotal : ℚ := (req.items.map fun i => i.price * (i.quantity : ℚ)).sum
    let tax : ℚ := round2 (subtotal * 0.18)
    let shipping : ℚ := if subtotal < 999 then 49 else 0
    let total : ℚ := round2 (subtotal + tax + shipping)
    let order_doc : OrderDoc :=
      { items := req.items, subtotal := subtotal, tax := tax,
        shipping := shipping, total := total, currency := "INR",
        customer_name := req.customer_name,
        customer_email := req.customer_email,
        customer_address := req.customer_address,
        payment_status := "pending", payment_provider := "mock" }
    let r := create_document_order s order_doc
    (Except.ok
      { order_id := r.1, amount := total, currency := "INR",
        payment_url :=
          "/api/checkout/confirm?order_id=" ++ r.1 ++ "&status=paid" },
     r.2)

/-- Response of the confirm endpoint: `{"order_id": ..., "payment_status": ...}`. -/
structure ConfirmResp where
  order_id : String
  payment_status : String
deriving DecidableEq, Repr

/-- `update_one({"_id": oid}, {"$set": {"payment_status": ns}})`: patch the
first stored order whose id matches, leaving the rest untouched. -/
def updateFirstOrder : List (Stored OrderDoc) → String → String →
    List (Stored OrderDoc)
  | [], _, _ => []
  | d :: rest, oid, ns =>
      if d.oid == oid then
        { d with doc := { d.doc with payment_status := ns } } :: rest
      else d :: updateFirstOrder rest oid ns

/-- The store after `confirm_order` persists the new payment status. -/
def setPaymentStatus (s : Store) (oid : String) (ns : String) : Store :=
  { s with orders := updateFirstOrder s.orders oid ns }

/-- `confirm_order` from `src/main.py`.  `order_id is None` raises 400; the
guard `... if order_id else None` makes an empty string skip the lookup
(falsy), yielding 404; a non-empty `order_id` is fed to `bson.ObjectId`,
which raises `InvalidId` on a malformed string — unhandled, surfaced by the
framework as a 500 response; a well-formed id is looked up, 404 when absent;
otherwise `payment_status` is set to "paid" exactly when the supplied status
equals "paid", else "failed", persisted, and echoed back.

Modelling caveat: ids are modelled by their canonical string form (the
store mints lowercase hex), and the `find_one({"_id": ObjectId(order_id)})`
lookup is modelled as string equality with the stored id.  `bson.ObjectId`
parses the supplied hex case-insensitively, so this coincides with the code
exactly when the supplied id is in canonical lowercase form; theorems about
the matched branch therefore assume a stored order with the identical id
string, and theorems about the unmatched 404 branch assume no stored id
matches even case-insensitively. -/
def confirm_order (s : Store) (order_id : Option String)
    (status : Option String) : Except HTTPError ConfirmResp × Store :=
  match order_id with
  | none => (Except.error ⟨400, "order_id required"⟩, s)
  | some oid =>
      if oid = "" then (Except.error ⟨404, "Order not found"⟩, s)
      else if isValidObjectId oid = false then
        (Except.error ⟨500, "Internal Server Error"⟩, s)
      else
        match s.orders.find? (fun d => d.oid == oid) with
        | none => (Except.error ⟨404, "Order not found"⟩, s)
        | some _ =>
            let ns := if status = some "paid" then "paid" else "failed"
            (Except.ok ⟨oid, ns⟩, setPaymentStatus s oid ns)

/-- Specification-side checkout arithmetic (spec §4.6), to be compared with
the handler: subtotal is the sum of price times quantity over the items. -/
def subtotalSpec (items : List OrderItem) : ℚ :=
  (items.map fun i => i.price * (i.quantity : ℚ)).sum

/-- Specification-side tax: `round(subtotal × 0.18, 2 decimal places)`. -/
def taxSpec (subtotal : ℚ) : ℚ := round2 (subtotal * 0.18)

/-- Specification-side shipping: `49.0` below 999, else `0.0`. -/
def shippingSpec (subtotal : ℚ) : ℚ := if subtotal < 999 then 49 else 0

/-- Specification-side total:
`round(subtotal + tax + shipping, 2 decimal places)`. -/
def totalSpec (subtotal : ℚ) : ℚ :=
  round2 (subtotal + taxSpec subtotal + shippingSpec subtotal)

/-! ### Helper lemmas -/

/-- Evaluate `round2` once the scaled value is bracketed by an integer. -/
lemma round2_eq_of (x : ℚ) (n : ℤ) (h1 : (n : ℚ) ≤ x * 100 + 1 / 2)
    (h2 : x * 100 + 1 / 2 < n + 1) : round2 x = (n : ℚ) / 100 := by
  rw [round2, Int.floor_eq_iff.mpr ⟨h1, h2⟩]

/-- Rounding an integer value to 2 decimal places leaves it unchanged. -/
lemma round2_intCast (n : ℤ) : round2 (n : ℚ) = n := by
  rw [round2_eq_of (n : ℚ) (100 * n) (by push_cast; linarith)
    (by push_cast; linarith)]
  push_cast
  ring

/-- Inserting a list of products appends exactly their documents. -/
lemma insertProducts_products (ps : List ProductDoc) : ∀ s : Store,
    (insertProducts s ps).products.map (·.doc) =
      s.products.map (·.doc) ++ ps := by
  induction ps with
  | nil => intro s; simp [insertProducts]
  | cons p t ih =>
      intro s
      have step : insertProducts s (p :: t) =
          insertProducts (create_document_product s p).2 t := rfl
      rw [step, ih]
      simp [create_document_product]

/-- A list with a matching element has a successful `find?`. -/
lemma find?_oid_some {l : List (Stored OrderDoc)} {oid : String}
    (h : ∃ d ∈ l, d.oid = oid) :
    ∃ d, l.find? (fun d => d.oid == oid) = some d := by
  have : (l.find? (fun d => d.oid == oid)).isSome = true := by
    rcases h with ⟨d, hd, he⟩
    exact List.find?_isSome.mpr ⟨d, hd, by simp [he]⟩
  exact Option.isSome_iff_exists.mp this

/-- After patching the first matching order, looking the id up again yields
the new payment status. -/
lemma updateFirstOrder_persists (oid ns : String) :
    ∀ l : List (Stored OrderDoc), (∃ d ∈ l, d.oid = oid) →
    (((updateFirstOrder l oid ns).find? (fun d => d.oid == oid)).map
        fun d => d.doc.payment_status) = some ns := by
  intro l
  induction l with
  | nil => intro h; simp at h
  | cons d t ih =>
      intro h
      by_cases hd : d.oid = oid
      · simp [updateFirstOrder, hd, List.find?_cons_of_pos]
      · have ht : ∃ e ∈ t, e.oid = oid := by
          rcases h with ⟨e, he, heq⟩
          rcases List.mem_cons.mp he with rfl | hmem
          · exact absurd heq hd
          · exact ⟨e, hmem, heq⟩
        have hne : ¬ (d.oid == oid) = true := by simp [hd]
        simp only [updateFirstOrder]
        rw [if_neg hne,
          @List.find?_cons_of_neg _ (fun e => e.oid == oid) d
            (updateFirstOrder t oid ns) hne]
        exact ih ht

/-! ### Claims -/

/-- C1: for every createOrder request with a non-empty items list the
persisted charges satisfy the spec formulas — subtotal is the sum of price
times quantity, tax is subtotal × 0.18 rounded to 2 decimals, shipping is 49
below a 999 subtotal and 0 otherwise, total is their rounded sum — and the
returned amount equals that total; at the spec's examples the numbers are
1000/180/0/1180 and 100/18/49/167. -/
theorem create_order_charges (s : Store) (req : CreateOrderRequest)
    (h : req.items ≠ []) :
    (∃ (resp : CreateOrderResp) (s' : Store),
      create_order s req = (Except.ok resp, s') ∧
      s'.orders.map (·.doc) = s.orders.map (·.doc) ++
        [{ items := req.items,
           subtotal := subtotalSpec req.items,
           tax := taxSpec (subtotalSpec req.items),
           shipping := shippingSpec (subtotalSpec req.items),
           total := totalSpec (subtotalSpec req.items),
           currency := "INR", customer_name := req.customer_name,
           customer_email := req.customer_email,
           customer_address := req.customer_address,
           payment_status := "pending", payment_provider := "mock" }] ∧
      resp.amount = totalSpec (subtotalSpec req.items)) ∧
    subtotalSpec [⟨"p1", "Item", 500, 2, none⟩] = 1000 ∧
    taxSpec 1000 = 180 ∧ shippingSpec 1000 = 0 ∧ totalSpec 1000 = 1180 ∧
    subtotalSpec [⟨"p2", "Item", 100, 1, none⟩] = 100 ∧
    taxSpec 100 = 18 ∧ shippingSpec 100 = 49 ∧ totalSpec 100 = 167 := by
  refine ⟨?_, ?_, ?_, ?_, ?_, ?_, ?_, ?_, ?_⟩
  · refine ⟨{ order_id := natToId s.counter,
              amount := totalSpec (subtotalSpec req.items),
              currency := "INR",
              payment_url := "/api/checkout/confirm?order_id=" ++
                natToId s.counter ++ "&status=paid" },
            { s with
              orders := s.orders ++ [⟨natToId s.counter,
                { items := req.items,
                  subtotal := subtotalSpec req.items,
                  tax := taxSpec (subtotalSpec req.items),
                  shipping := shippingSpec (subtotalSpec req.items),
                  total := totalSpec (subtotalSpec req.items),
                  currency := "INR", customer_name := req.customer_name,
                  customer_email := req.customer_email,
                  customer_address := req.customer_address,
                  payment_status := "pending", payment_provider := "mock" }⟩],
              counter := s.counter + 1 }, ?_, ?_, rfl⟩
    · simp only [create_order, if_neg h]
      rfl
    · simp [List.map_append]
  · norm_num [subtotalSpec]
  · rw [taxSpec, show ((1000 : ℚ) * 0.18) = ((180 : ℤ) : ℚ) by norm_num,
      round2_intCast]
    norm_num
  · rw [shippingSpec]; norm_num
  · rw [totalSpec, taxSpec, shippingSpec,
      show ((1000 : ℚ) * 0.18) = ((180 : ℤ) : ℚ) by norm_num, round2_intCast]
    norm_num
    simpa using round2_intCast 1180
  · norm_num [subtotalSpec]
  · rw [taxSpec, show ((100 : ℚ) * 0.18) = ((18 : ℤ) : ℚ) by norm_num,
      round2_intCast]
    norm_num
  · rw [shippingSpec]; norm_num
  · rw [totalSpec, taxSpec, shippingSpec,
      show ((100 : ℚ) * 0.18) = ((18 : ℤ) : ℚ) by norm_num, round2_intCast]
    norm_num
    simpa using round2_intCast 167

/-- The spec's first checkout example: one item, price 500, quantity 2. -/
def exampleOrderReq : CreateOrderRequest :=
  ⟨[⟨"p1", "Item", 500, 2, none⟩], "A", "a@b.c", "Addr"⟩

/-- Witness for C1: the theorem applied to the spec's first example. -/
theorem create_order_charges_witness :
    ∃ (resp : CreateOrderResp) (s' : Store),
      create_order emptyStore exampleOrderReq = (Except.ok resp, s') ∧
      s'.orders.map (·.doc) = emptyStore.orders.map (·.doc) ++
        [{ items := exampleOrderReq.items,
           subtotal := subtotalSpec exampleOrderReq.items,
           tax := taxSpec (subtotalSpec exampleOrderReq.items),
           shipping := shippingSpec (subtotalSpec exampleOrderReq.items),
           total := totalSpec (subtotalSpec exampleOrderReq.items),
           currency := "INR",
           customer_name := exampleOrderReq.customer_name,
           customer_email := exampleOrderReq.customer_email,
           customer_address := exampleOrderReq.customer_address,
           payment_status := "pending", payment_provider := "mock" }] ∧
      resp.amount = totalSpec (subtotalSpec exampleOrderReq.items) :=
  (create_order_charges emptyStore exampleOrderReq
    (by simp [exampleOrderReq])).1

/-- C2: createOrder on an empty items list fails with the 400 Bad Request
"Cart is empty" and leaves the store untouched. -/
theorem create_order_empty_cart (s : Store) (req : CreateOrderRequest)
    (h : req.items = []) :
    create_order s req = (Except.error ⟨400, "Cart is empty"⟩, s) := by
  simp [create_order, h]

/-- Witness for C2 at a concrete empty-cart request. -/
theorem create_order_empty_cart_witness :
    create_order emptyStore ⟨[], "A", "a@b.c", "Addr"⟩ =
      (Except.error ⟨400, "Cart is empty"⟩, emptyStore) :=
  create_order_empty_cart emptyStore ⟨[], "A", "a@b.c", "Addr"⟩ rfl

/-- C6: bookConsultation always succeeds, stores the consultation with the
schema default status "pending", and answers with the new id and the fixed
status string "pending". -/
theorem book_consultation_pending (s : Store) (r : ConsultationRequest) :
    book_consultation s r =
      ({ id := natToId s.counter, status := "pending" },
       { s with
         consultations := s.consultations ++ [⟨natToId s.counter, consultationDocOf r⟩],
         counter := s.counter + 1 }) ∧
    (consultationDocOf r).status = "pending" :=
  ⟨rfl, rfl⟩

/-- C9: listConsultations returns at most `limit` documents, and an absent
limit behaves as the default 20. -/
theorem list_consultations_limit (s : Store) (limit : Nat) :
    (list_consultations s (some limit)).length ≤ limit ∧
    list_consultations s none = list_consultations s (some 20) := by
  constructor
  · simp [list_consultations, get_documents_consultation]
  · rfl

/-- A valid ObjectId string is non-empty. -/
lemma isValidObjectId_ne_empty {oid : String} (h : isValidObjectId oid = true) :
    oid ≠ "" := by
  intro he
  subst he
  exact absurd h (by decide)

/-- C3: confirmOrder on an existing order sets payment_status to "paid"
exactly when the supplied status is the literal "paid" and to "failed" for
every other supplied value, persists the update, and answers with the order
id and the resulting status. -/
theorem confirm_order_sets_status (s : Store) (oid status ns : String)
    (hval : isValidObjectId oid = true)
    (hex : ∃ d ∈ s.orders, d.oid = oid)
    (hns : ns = if status = "paid" then "paid" else "failed") :
    confirm_order s (some oid) (some status) =
      (Except.ok ⟨oid, ns⟩, setPaymentStatus s oid ns) ∧
    (((setPaymentStatus s oid ns).orders.find? (fun d => d.oid == oid)).map
        fun d => d.doc.payment_status) = some ns := by
  obtain ⟨d0, hd0⟩ := find?_oid_some hex
  constructor
  · simp only [confirm_order, if_neg (isValidObjectId_ne_empty hval), hval,
      hd0]
    simp [hns]
  · exact updateFirstOrder_persists oid ns s.orders hex

/-- A concrete stored order used to instantiate the confirm theorems. -/
def sampleOrderDoc : OrderDoc :=
  { items := [⟨"p1", "Item", 500, 2, none⟩], subtotal := 1000, tax := 180,
    shipping := 0, total := 1180, currency := "INR", customer_name := "A",
    customer_email := "a@b.c", customer_address := "Addr",
    payment_status := "pending", payment_provider := "mock" }

/-- A store holding exactly one order under a well-formed ObjectId. -/
def sampleOrderStore : Store :=
  { emptyStore with orders := [⟨"507f191e810c19729de860ea", sampleOrderDoc⟩] }

/-- Witness for C3: confirming the sample order with status "paid". -/
theorem confirm_order_sets_status_witness :
    confirm_order sampleOrderStore (some "507f191e810c19729de860ea")
        (some "paid") =
      (Except.ok ⟨"507f191e810c19729de860ea", "paid"⟩,
       setPaymentStatus sampleOrderStore "507f191e810c19729de860ea" "paid") ∧
    (((setPaymentStatus sampleOrderStore "507f191e810c19729de860ea"
          "paid").orders.find?
        (fun d => d.oid == "507f191e810c19729de860ea")).map
        fun d => d.doc.payment_status) = some "paid" :=
  confirm_order_sets_status sampleOrderStore "507f191e810c19729de860ea"
    "paid" "paid" (by decide)
    ⟨⟨"507f191e810c19729de860ea", sampleOrderDoc⟩,
      List.mem_cons_self _ _, rfl⟩ rfl

/-- C10: confirmOrder on an existing order with the status parameter absent
is not rejected: the handler compares `None` with "paid", stores "failed"
and answers payment_status "failed". -/
theorem confirm_order_absent_status (s : Store) (oid : String)
    (hval : isValidObjectId oid = true)
    (hex : ∃ d ∈ s.orders, d.oid = oid) :
    confirm_order s (some oid) none =
      (Except.ok ⟨oid, "failed"⟩, setPaymentStatus s oid "failed") ∧
    (((setPaymentStatus s oid "failed").orders.find?
        (fun d => d.oid == oid)).map
        fun d => d.doc.payment_status) = some "failed" := by
  obtain ⟨d0, hd0⟩ := find?_oid_some hex
  constructor
  · simp only [confirm_order, if_neg (isValidObjectId_ne_empty hval), hval,
      hd0]
    simp
  · exact updateFirstOrder_persists oid "failed" s.orders hex

/-- Witness for C10: confirming the sample order with no status supplied. -/
theorem confirm_order_absent_status_witness :
    confirm_order sampleOrderStore (some "507f191e810c19729de860ea") none =
      (Except.ok ⟨"507f191e810c19729de860ea", "failed"⟩,
       setPaymentStatus sampleOrderStore "507f191e810c19729de860ea"
         "failed") ∧
    (((setPaymentStatus sampleOrderStore "507f191e810c19729de860ea"
          "failed").orders.find?
        (fun d => d.oid == "507f191e810c19729de860ea")).map
        fun d => d.doc.payment_status) = some "failed" :=
  confirm_order_absent_status sampleOrderStore "507f191e810c19729de860ea"
    (by decide)
    ⟨⟨"507f191e810c19729de860ea", sampleOrderDoc⟩,
      List.mem_cons_self _ _, rfl⟩

/-- Counterexample for C8: the spec's own probe `order_id = "nonexistent"`
matches no stored order, yet the handler does not answer Not Found — the
`bson.ObjectId` constructor raises on the malformed string and the request
surfaces as a 500, not as the 404 "Order not found". -/
theorem confirm_order_unmatched_counterexample :
    (confirm_order emptyStore (some "nonexistent") (some "paid")).1 =
      Except.error ⟨500, "Internal Server Error"⟩ ∧
    ((Except.error ⟨500, "Internal Server Error"⟩ :
        Except HTTPError ConfirmResp) ≠
      Except.error ⟨404, "Order not found"⟩) := by
  refine ⟨rfl, ?_⟩
  intro hcon
  have h2 := Except.error.inj hcon
  exact absurd (congrArg HTTPError.status h2) (by decide)

/-- C8 (amended): confirmOrder without an order_id fails 400 Bad Request; an
order_id that is supplied but matches no stored order — no match even under
bson's case-insensitive hex reading of the id — fails 404 Not Found when it
is an empty string or a well-formed 24-hex ObjectId (a malformed non-empty
id instead raises the unhandled InvalidId error, surfaced as 500); in every
failure case the store is unchanged. -/
theorem confirm_order_rejects_missing (s : Store) (status : Option String) :
    confirm_order s none status =
      (Except.error ⟨400, "order_id required"⟩, s) ∧
    confirm_order s (some "") status =
      (Except.error ⟨404, "Order not found"⟩, s) ∧
    (∀ oid : String, isValidObjectId oid = true →
      (∀ d ∈ s.orders, d.oid.toLower ≠ oid.toLower) →
      confirm_order s (some oid) status =
        (Except.error ⟨404, "Order not found"⟩, s)) ∧
    (∀ oid : String, oid ≠ "" → isValidObjectId oid = false →
      confirm_order s (some oid) status =
        (Except.error ⟨500, "Internal Server Error"⟩, s)) := by
  refine ⟨rfl, rfl, ?_, ?_⟩
  · intro oid hval hnone
    have hfind : s.orders.find? (fun d => d.oid == oid) = none :=
      List.find?_eq_none.mpr fun d hd => by
        have hne2 : d.oid ≠ oid := fun he => hnone d hd (by rw [he])
        simpa using hne2
    simp only [confirm_order, if_neg (isValidObjectId_ne_empty hval), hval,
      hfind]
    simp
  · intro oid hne hval
    simp [confirm_order, if_neg hne, hval]

/-- Witness for C8 (amended): a well-formed id over the empty store. -/
theorem confirm_order_rejects_missing_witness :
    confirm_order emptyStore (some "507f191e810c19729de860ea")
        (some "paid") =
      (Except.error ⟨404, "Order not found"⟩, emptyStore) :=
  ((confirm_order_rejects_missing emptyStore (some "paid")).2.2.1
    "507f191e810c19729de860ea" (by decide)
    (by intro d hd; simp [emptyStore] at hd))

/-- C5: createBlog with a slug already stored fails with the duplicate-slug
error and writes nothing; with a fresh slug it inserts the post and returns
the new id, so two sequential creations of the same slug give one success
then the duplicate-slug failure. -/
theorem create_blog_slug_unique (s : Store) (b : BlogCreate) :
    ((∃ d ∈ s.blogposts, d.doc.slug = b.slug) →
      create_blog s b = (Except.error ⟨400, "Slug already exists"⟩, s)) ∧
    ((∀ d ∈ s.blogposts, d.doc.slug ≠ b.slug) →
      create_blog s b =
        (Except.ok (natToId s.counter),
         { s with
           blogposts := s.blogposts ++ [⟨natToId s.counter, blogDocOf b⟩],
           counter := s.counter + 1 }) ∧
      ∀ b2 : BlogCreate, b2.slug = b.slug →
        (create_blog (create_blog s b).2 b2).1 =
          Except.error ⟨400, "Slug already exists"⟩) := by
  constructor
  · intro hex
    obtain ⟨d0, hd0⟩ : ∃ d,
        s.blogposts.find? (fun d => d.doc.slug == b.slug) = some d := by
      have : (s.blogposts.find?
          (fun d => d.doc.slug == b.slug)).isSome = true := by
        rcases hex with ⟨d, hd, he⟩
        exact List.find?_isSome.mpr ⟨d, hd, by simp [he]⟩
      exact Option.isSome_iff_exists.mp this
    simp [create_blog, hd0]
  · intro hnone
    have hfind : s.blogposts.find? (fun d => d.doc.slug == b.slug) = none :=
      List.find?_eq_none.mpr fun d hd => by simpa using hnone d hd
    have hstep : create_blog s b =
        (Except.ok (natToId s.counter),
         { s with
           blogposts := s.blogposts ++ [⟨natToId s.counter, blogDocOf b⟩],
           counter := s.counter + 1 }) := by
      simp [create_blog, hfind, create_document_blogpost]
    refine ⟨hstep, ?_⟩
    intro b2 hb2
    rw [hstep]
    simp [create_blog, hfind, blogDocOf, hb2]

/-- Witness for C5: creating slug "hello" twice over the empty store. -/
theorem create_blog_slug_unique_witness :
    create_blog emptyStore ⟨"t", "hello", "c", none, none, none⟩ =
      (Except.ok (natToId emptyStore.counter),
       { emptyStore with
         blogposts := emptyStore.blogposts ++
           [⟨natToId emptyStore.counter,
             blogDocOf ⟨"t", "hello", "c", none, none, none⟩⟩],
         counter := emptyStore.counter + 1 }) ∧
    (create_blog
        (create_blog emptyStore ⟨"t", "hello", "c", none, none, none⟩).2
        ⟨"t2", "hello", "c2", none, none, none⟩).1 =
      Except.error ⟨400, "Slug already exists"⟩ := by
  have h := (create_blog_slug_unique emptyStore
    ⟨"t", "hello", "c", none, none, none⟩).2 (by simp [emptyStore])
  exact ⟨h.1, h.2 ⟨"t2", "hello", "c2", none, none, none⟩ rfl⟩

/-- C4: seeding an empty collection inserts exactly the 10 sample products
(title "Product N", price 499 + 50·(N−1) strictly increasing, 3-digit
zero-padded sku, stock_qty 20) and reports 10; a second call without force
inserts 0 and writes nothing; with force the collection afterwards holds
exactly the 10 samples whatever it held before. -/
theorem seed_products_catalog :
    (∀ s : Store, s.products = [] →
      (seed_products s false).1.inserted = 10 ∧
      ((seed_products s false).2).products.map (·.doc) = SAMPLE_PRODUCTS) ∧
    (∀ s : Store, s.products ≠ [] →
      seed_products s false = (⟨0, some "Products already exist"⟩, s)) ∧
    (∀ s : Store, (seed_products s true).1.inserted = 10 ∧
      ((seed_products s true).2).products.map (·.doc) = SAMPLE_PRODUCTS) ∧
    (∀ i : Fin 10,
      (SAMPLE_PRODUCTS[(i : Nat)]?).map (·.title) =
        some ("Product " ++ toString ((i : Nat) + 1)) ∧
      (SAMPLE_PRODUCTS[(i : Nat)]?).map (·.price) =
        some (499 + 50 * ((i : Nat) : ℚ)) ∧
      (SAMPLE_PRODUCTS[(i : Nat)]?).map (·.sku) =
        some (some ("SKU" ++ pad3 ((i : Nat) + 1))) ∧
      (SAMPLE_PRODUCTS[(i : Nat)]?).map (·.stock_qty) = some 20) ∧
    (SAMPLE_PRODUCTS.map (·.price)).Chain' (· < ·) := by
  refine ⟨?_, ?_, ?_, ?_, ?_⟩
  · intro s h
    constructor
    · simp [seed_products, h, SAMPLE_PRODUCTS]
    · simp [seed_products, h, insertProducts_products]
  · intro s h
    simp [seed_products, List.length_pos.mpr h]
  · intro s
    constructor
    · simp [seed_products, SAMPLE_PRODUCTS]
    · simp [seed_products, insertProducts_products]
  · intro i
    fin_cases i <;>
      refine ⟨?_, ?_, ?_, ?_⟩ <;>
      simp [SAMPLE_PRODUCTS,
        show List.range 10 = [0, 1, 2, 3, 4, 5, 6, 7, 8, 9] from rfl,
        pad3] <;>
      norm_num
  · simp [SAMPLE_PRODUCTS,
      show List.range 10 = [0, 1, 2, 3, 4, 5, 6, 7, 8, 9] from rfl,
      List.chain'_cons]
    norm_num

/-- Witness for C4: seeding the empty store, then seeding again. -/
theorem seed_products_catalog_witness :
    (seed_products emptyStore false).1.inserted = 10 ∧
    ((seed_products emptyStore false).2).products.map (·.doc) =
      SAMPLE_PRODUCTS ∧
    seed_products ((seed_products emptyStore false).2) false =
      (⟨0, some "Products already exist"⟩,
       (seed_products emptyStore false).2) := by
  obtain ⟨h1, h2⟩ := seed_products_catalog.1 emptyStore rfl
  refine ⟨h1, h2, seed_products_catalog.2.1 _ ?_⟩
  intro hz
  rw [hz] at h2
  exact absurd h2.symm (by simp [SAMPLE_PRODUCTS])

/-- A store already holding a blog post with slug "hello". -/
def helloStore : Store :=
  { emptyStore with
    blogposts := [⟨natToId 0, ⟨"t", "hello", none, "c", none, none⟩⟩] }

/-- Counterexample for C7: the claim pairs Conflict with 404 and NotFound
with 400, but the handlers raise the duplicate-slug Conflict with status 400
and the missing-slug NotFound with status 404. -/
theorem error_statuses_counterexample :
    (create_blog helloStore ⟨"t2", "hello", "c2", none, none, none⟩).1 =
      Except.error ⟨400, "Slug already exists"⟩ ∧
    get_blog emptyStore "hello" = Except.error ⟨404, "Not found"⟩ ∧
    (400 : Nat) ≠ 404 :=
  ⟨rfl, rfl, by decide⟩

/-- C7 (amended): every error the src handlers raise is a structured
status/detail pair, with BadRequest (empty cart, absent order_id) at 400,
Conflict (duplicate slug) at 400 — not the 404 the claim's list assigns —
and NotFound (missing slug, or a well-formed order id matching no stored
order even under bson's case-insensitive hex reading) at 404 — not 400.
The ValidationFailed 422 and StoreUnavailable 503 statuses are raised by
the framework and the absent adapter, outside these sources. -/
theorem error_statuses (s : Store) :
    (∀ b : BlogCreate, (∃ d ∈ s.blogposts, d.doc.slug = b.slug) →
      (create_blog s b).1 = Except.error ⟨400, "Slug already exists"⟩) ∧
    (∀ slug : String, (∀ d ∈ s.blogposts, d.doc.slug ≠ slug) →
      get_blog s slug = Except.error ⟨404, "Not found"⟩) ∧
    (∀ req : CreateOrderRequest, req.items = [] →
      (create_order s req).1 = Except.error ⟨400, "Cart is empty"⟩) ∧
    (∀ status : Option String,
      (confirm_order s none status).1 =
        Except.error ⟨400, "order_id required"⟩) ∧
    (∀ (oid : String) (status : Option String),
      isValidObjectId oid = true →
      (∀ d ∈ s.orders, d.oid.toLower ≠ oid.toLower) →
      (confirm_order s (some oid) status).1 =
        Except.error ⟨404, "Order not found"⟩) := by
  refine ⟨?_, ?_, ?_, fun _ => rfl, ?_⟩
  · intro b hex
    obtain ⟨d0, hd0⟩ : ∃ d,
        s.blogposts.find? (fun d => d.doc.slug == b.slug) = some d := by
      have : (s.blogposts.find?
          (fun d => d.doc.slug == b.slug)).isSome = true := by
        rcases hex with ⟨d, hd, he⟩
        exact List.find?_isSome.mpr ⟨d, hd, by simp [he]⟩
      exact Option.isSome_iff_exists.mp this
    simp [create_blog, hd0]
  · intro slug hnone
    have hfind : s.blogposts.find? (fun d => d.doc.slug == slug) = none :=
      List.find?_eq_none.mpr fun d hd => by simpa using hnone d hd
    simp [get_blog, hfind]
  · intro req h
    simp [create_order, h]
  · intro oid status hval hnone
    have hfind : s.orders.find? (fun d => d.oid == oid) = none :=
      List.find?_eq_none.mpr fun d hd => by
        have hne2 : d.oid ≠ oid := fun he => hnone d hd (by rw [he])
        simpa using hne2
    simp only [confirm_order, if_neg (isValidObjectId_ne_empty hval), hval,
      hfind]
    simp

/-- Witness for C7 (amended): all five error paths at concrete inputs. -/
theorem error_statuses_witness :
    (create_blog helloStore ⟨"t2", "hello", "c2", none, none, none⟩).1 =
      Except.error ⟨400, "Slug already exists"⟩ ∧
    get_blog helloStore "absent" = Except.error ⟨404, "Not found"⟩ ∧
    (create_order helloStore ⟨[], "A", "a@b.c", "Addr"⟩).1 =
      Except.error ⟨400, "Cart is empty"⟩ ∧
    (confirm_order helloStore none (some "paid")).1 =
      Except.error ⟨400, "order_id required"⟩ ∧
    (confirm_order helloStore (some "507f191e810c19729de860ea")
        (some "paid")).1 = Except.error ⟨404, "Order not found"⟩ :=
  ⟨(error_statuses helloStore).1 ⟨"t2", "hello", "c2", none, none, none⟩
      (by simp [helloStore, emptyStore]),
   (error_statuses helloStore).2.1 "absent"
      (by simp [helloStore, emptyStore]),
   (error_statuses helloStore).2.2.1 ⟨[], "A", "a@b.c", "Addr"⟩ rfl,
   (error_statuses helloStore).2.2.2.1 (some "paid"),
   (error_statuses helloStore).2.2.2.2 "507f191e810c19729de860ea"
      (some "paid") (by decide)
      (by intro d hd; simp [helloStore, emptyStore] at hd)⟩
